import Mathlib

/-!
# CoreAudio format negotiation and synchronous format switch

A shallow embedding of `audio/out/ao_coreaudio_utils.c`:

* `value_is_better`, `ca_asbd_is_better`: the ranking of candidate hardware formats;
* `ca_formatid_is_compressed`, `ca_normalize_formatid`, `ca_asbd_equals`: descriptor equality;
* `ca_change_physical_format_sync`: the listener-driven switch of a stream's physical format,
  as a function of the answers the CoreAudio property calls and the timed wait give, returning
  the verdict together with the trace of calls it made.

Unsigned 32-bit fields are natural numbers (the code only compares and masks them), the two
`int` policy flags and `OSStatus` are integers, and a C `double` is modelled by `Double` below.
-/

namespace CoreAudio

/-! ## C doubles, as far as comparison sees them -/

/-- A C `double` up to what `<`, `<=`, `>=` and `==` can observe: NaN, the two infinities, or a
finite value (both zeros are the finite value `0`). Every finite binary64 value is a rational. -/
inductive Double where
  | nan : Double
  | negInf : Double
  | finite (q : ℚ) : Double
  | posInf : Double
  deriving DecidableEq

namespace Double

/-- C `a < b` on doubles: false as soon as one side is NaN. -/
def lt : Double → Double → Bool
  | finite a, finite b => decide (a < b)
  | negInf, finite _ => true
  | negInf, posInf => true
  | finite _, posInf => true
  | _, _ => false

/-- C `a <= b` on doubles: false as soon as one side is NaN. -/
def le : Double → Double → Bool
  | finite a, finite b => decide (a ≤ b)
  | negInf, negInf => true
  | negInf, finite _ => true
  | negInf, posInf => true
  | finite _, posInf => true
  | posInf, posInf => true
  | _, _ => false

/-- C `a >= b` on doubles. -/
def ge (a b : Double) : Bool := le b a

/-- C `a == b` on doubles: NaN equals nothing, itself included. -/
def eq : Double → Double → Bool
  | finite a, finite b => decide (a = b)
  | negInf, negInf => true
  | posInf, posInf => true
  | _, _ => false

/-- The conversion of a `uint32_t` (or a small `int` constant) to `double`; it is exact. -/
def ofNat (n : Nat) : Double := finite (n : ℚ)

/-- The value is not a NaN. -/
def isNum : Double → Bool
  | nan => false
  | _ => true

end Double

/-! ## The descriptor and the CoreAudio constants

The format tags and flag bits are those of CoreAudio's `CoreAudioBaseTypes.h`; the two
multi-character constants `'IAC3'` and `'iac3'` are written in the source itself. -/

/-- The struct `AudioStreamBasicDescription` of CoreAudio. -/
structure AudioStreamBasicDescription where
  mSampleRate : Double
  mFormatID : Nat
  mFormatFlags : Nat
  mBytesPerPacket : Nat
  mFramesPerPacket : Nat
  mBytesPerFrame : Nat
  mChannelsPerFrame : Nat
  mBitsPerChannel : Nat
  mReserved : Nat
  deriving DecidableEq

/-- The four-character constant `'lpcm'`. -/
def kAudioFormatLinearPCM : Nat := 0x6C70636D
/-- The four-character constant `'ac-3'`. -/
def kAudioFormatAC3 : Nat := 0x61632D33
/-- The four-character constant `'cac3'`. -/
def kAudioFormat60958AC3 : Nat := 0x63616333
/-- The multi-character constant `'IAC3'` of the source. -/
def tag_IAC3 : Nat := 0x49414333
/-- The multi-character constant `'iac3'` of the source. -/
def tag_iac3 : Nat := 0x69616333

def kAudioFormatFlagIsFloat : Nat := 1
def kAudioFormatFlagIsBigEndian : Nat := 2
def kAudioFormatFlagIsSignedInteger : Nat := 4
def kAudioFormatFlagIsPacked : Nat := 8
def kAudioFormatFlagIsAlignedHigh : Nat := 16
def kAudioFormatFlagIsNonInterleaved : Nat := 32
def kAudioFormatFlagIsNonMixable : Nat := 64

/-- The `OSStatus` value of success. -/
def noErr : Int := 0

/-! ## Ranking -/

/-- The function `value_is_better(req, old, new)`: whether `new` is an improvement over `old`. -/
def value_is_better (req old new : Double) : Bool :=
  if Double.ge new req then
    Double.lt old req || Double.le new old
  else
    Double.lt old req && Double.ge new old

/-- The function `ca_asbd_is_better(req, old, new, mixableflag, bytesflag)`. The macro
`MP_NUM_CHANNELS`, declared in `audio/chmap.h` and not in this file, is the first argument. -/
def ca_asbd_is_better (MP_NUM_CHANNELS : Nat) (req old new : AudioStreamBasicDescription)
    (mixableflag bytesflag : Int) : Bool :=
  if new.mChannelsPerFrame > MP_NUM_CHANNELS then false
  else if old.mChannelsPerFrame > MP_NUM_CHANNELS then true
  else if req.mFormatID ≠ new.mFormatID then false
  else if req.mFormatID ≠ old.mFormatID then true
  else if (if bytesflag = 1 then
        !value_is_better (Double.ofNat 6) (Double.ofNat old.mBytesPerFrame)
          (Double.ofNat new.mBytesPerFrame)
      else
        !value_is_better (Double.ofNat req.mBitsPerChannel) (Double.ofNat old.mBitsPerChannel)
          (Double.ofNat new.mBitsPerChannel)) then false
  else if mixableflag = 1 ∧
      (req.mFormatFlags &&& kAudioFormatFlagIsNonMixable) ≠
        (new.mFormatFlags &&& kAudioFormatFlagIsNonMixable) then false
  else if mixableflag = 1 ∧
      (req.mFormatFlags &&& kAudioFormatFlagIsNonMixable) ≠
        (old.mFormatFlags &&& kAudioFormatFlagIsNonMixable) then true
  else if !value_is_better req.mSampleRate old.mSampleRate new.mSampleRate then false
  else if !value_is_better (Double.ofNat req.mChannelsPerFrame)
      (Double.ofNat old.mChannelsPerFrame) (Double.ofNat new.mChannelsPerFrame) then false
  else true

/-- Modelled from the spec: the caller's selection loop, which is not part of this file. The
first candidate is the initial best; each later candidate replaces the best exactly when
`ca_asbd_is_better(requested, best, candidate, 0, 0)` is true. -/
def selectBest (MP_NUM_CHANNELS : Nat) (requested first : AudioStreamBasicDescription)
    (rest : List AudioStreamBasicDescription) : AudioStreamBasicDescription :=
  rest.foldl
    (fun best candidate =>
      if ca_asbd_is_better MP_NUM_CHANNELS requested best candidate 0 0 then candidate else best)
    first

/-- A packed signed-integer linear PCM descriptor with the given rate, channels and bits. -/
def pcm (rate channels bits : Nat) : AudioStreamBasicDescription where
  mSampleRate := Double.ofNat rate
  mFormatID := kAudioFormatLinearPCM
  mFormatFlags := kAudioFormatFlagIsSignedInteger ||| kAudioFormatFlagIsPacked
  mBytesPerPacket := channels * (bits / 8)
  mFramesPerPacket := 1
  mBytesPerFrame := channels * (bits / 8)
  mChannelsPerFrame := channels
  mBitsPerChannel := bits
  mReserved := 0

/-! ## Descriptor equality -/

/-- The function `ca_formatid_is_compressed(formatid)`: a `switch` whose four case labels
share `return true`, followed by `return false`. -/
def ca_formatid_is_compressed (formatid : Nat) : Bool :=
  if formatid = tag_IAC3 then true
  else if formatid = tag_iac3 then true
  else if formatid = kAudioFormat60958AC3 then true
  else if formatid = kAudioFormatAC3 then true
  else false

/-- The function `ca_normalize_formatid(formatID)`. -/
def ca_normalize_formatid (formatID : Nat) : Nat :=
  if ca_formatid_is_compressed formatID then kAudioFormat60958AC3 else formatID

/-- The function `ca_asbd_equals(a, b, integer_mode_hack)`. -/
def ca_asbd_equals (a b : AudioStreamBasicDescription) (integer_mode_hack : Int) : Bool :=
  let spdif := ca_formatid_is_compressed a.mFormatID && ca_formatid_is_compressed b.mFormatID
  if integer_mode_hack = 1 then
    let flags := kAudioFormatFlagIsFloat ||| kAudioFormatFlagIsSignedInteger |||
      kAudioFormatFlagIsBigEndian
    decide ((a.mFormatFlags &&& flags) = (b.mFormatFlags &&& flags)) &&
      decide (a.mBitsPerChannel ≥ b.mBitsPerChannel) &&
      decide (ca_normalize_formatid a.mFormatID = ca_normalize_formatid b.mFormatID) &&
      (spdif || decide (a.mBytesPerPacket = b.mBytesPerPacket)) &&
      (spdif || decide (a.mChannelsPerFrame = b.mChannelsPerFrame)) &&
      Double.eq a.mSampleRate b.mSampleRate
  else if integer_mode_hack = 2 then
    let flags := kAudioFormatFlagIsNonMixable ||| kAudioFormatFlagIsFloat |||
      kAudioFormatFlagIsSignedInteger ||| kAudioFormatFlagIsBigEndian
    decide ((a.mFormatFlags &&& flags) = (b.mFormatFlags &&& flags)) &&
      decide (a.mBitsPerChannel = b.mBitsPerChannel) &&
      decide (ca_normalize_formatid a.mFormatID = ca_normalize_formatid b.mFormatID) &&
      (spdif || decide (a.mBytesPerPacket = b.mBytesPerPacket)) &&
      (spdif || decide (a.mChannelsPerFrame = b.mChannelsPerFrame)) &&
      Double.eq a.mSampleRate b.mSampleRate
  else if integer_mode_hack = 3 then
    let flags := kAudioFormatFlagIsPacked ||| kAudioFormatFlagIsFloat |||
      kAudioFormatFlagIsSignedInteger ||| kAudioFormatFlagIsBigEndian
    decide ((a.mFormatFlags &&& flags) = (b.mFormatFlags &&& flags)) &&
      decide (a.mBitsPerChannel ≥ b.mBitsPerChannel) &&
      decide (ca_normalize_formatid a.mFormatID = ca_normalize_formatid b.mFormatID) &&
      (spdif || decide (a.mBytesPerPacket ≥ b.mBytesPerPacket)) &&
      (spdif || decide (a.mChannelsPerFrame = b.mChannelsPerFrame)) &&
      Double.eq a.mSampleRate b.mSampleRate
  else
    let flags := kAudioFormatFlagIsPacked ||| kAudioFormatFlagIsFloat |||
      kAudioFormatFlagIsSignedInteger ||| kAudioFormatFlagIsBigEndian
    decide ((a.mFormatFlags &&& flags) = (b.mFormatFlags &&& flags)) &&
      decide (a.mBitsPerChannel = b.mBitsPerChannel) &&
      decide (ca_normalize_formatid a.mFormatID = ca_normalize_formatid b.mFormatID) &&
      (spdif || decide (a.mBytesPerPacket = b.mBytesPerPacket)) &&
      (spdif || decide (a.mChannelsPerFrame = b.mChannelsPerFrame)) &&
      Double.eq a.mSampleRate b.mSampleRate

/-! ## The synchronous switch of the physical format -/

/-- The function `check_ca_st(ao, level, code, message)`: whether the status is success (the
log line it writes on failure is left out). -/
def check_ca_st (code : Int) : Bool := decide (code = noErr)

/-- Modelled from the spec: the macro `CHECK_CA_WARN(message)` of `ao_coreaudio_utils.h`, which
is missing. A property-access failure is logged at warning level and not escalated; the macro
is the value of `check_ca_st` on the status `err`. -/
def CHECK_CA_WARN (err : Int) : Bool := check_ca_st err

/-- Modelled from the spec: the macro `CHECK_CA_ERROR(message)` of `ao_coreaudio_utils.h`,
which is missing. A property-access failure is logged and control leaves for the label
`coreaudio_error:` that the enclosing function declares; this is whether control leaves. -/
def CHECK_CA_ERROR (err : Int) : Bool := !check_ca_st err

/-- What the property calls and the timed wait answer during one call of
`ca_change_physical_format_sync`. A property read answers with a status and the descriptor it
stored in the out-parameter (meaningful when the status is `noErr`). -/
structure StreamEnv where
  /-- Answer of `CA_GET(stream, kAudioStreamPropertyPhysicalFormat, &prev_format)`. -/
  getPrev : Int × AudioStreamBasicDescription
  /-- Status of `AudioObjectAddPropertyListener`. -/
  addListener : Int
  /-- Status of `CA_SET(stream, kAudioStreamPropertyPhysicalFormat, &change_format)`. -/
  setFormat : Int
  /-- Answer of `CA_GET(stream, kAudioStreamPropertyPhysicalFormat, &actual_format)` in the
  loop's `i`-th pass, counted from 0. -/
  readback : Nat → Int × AudioStreamBasicDescription
  /-- Return value of `mp_cond_timedwait_until` in the loop's `i`-th pass: nonzero when the
  deadline `wait_until` has passed, zero when the wait was woken. -/
  timedWait : Nat → Int
  /-- Status of `CA_SET(stream, kAudioStreamPropertyPhysicalFormat, &prev_format)`. -/
  restore : Int
  /-- Status of `AudioObjectRemovePropertyListener`. -/
  removeListener : Int

/-- The calls `ca_change_physical_format_sync` makes, in order. -/
inductive Call where
  /-- The read of the format in use before switching. -/
  | getPrevFormat : Call
  | addPropertyListener : Call
  /-- A write of the stream's physical format. -/
  | setPhysicalFormat (format : AudioStreamBasicDescription) : Call
  /-- A read of the physical format inside the loop, with its status and the value read. -/
  | readback (err : Int) (actual : AudioStreamBasicDescription) : Call
  | timedWait : Call
  | mutexUnlock : Call
  | removePropertyListener : Call

/-- What one call returns and the calls it made. -/
structure Outcome where
  format_set : Bool
  calls : List Call

/-- The `while (1)` loop of `ca_change_physical_format_sync` from its `i`-th pass on, with the
current value of `format_set`; `none` when `fuel` passes do not reach a `break`. It gives the
value of `format_set` at the `break` and the calls made. -/
def pollLoop (env : StreamEnv) (change_format : AudioStreamBasicDescription) :
    Nat → Nat → Bool → Option (Bool × List Call)
  | 0, _, _ => none
  | fuel + 1, i, format_set =>
    let err := (env.readback i).1
    let actual_format := (env.readback i).2
    if !CHECK_CA_WARN err then
      some (format_set, [Call.readback err actual_format])
    else
      let format_set := ca_asbd_equals change_format actual_format 2
      if format_set then
        some (format_set, [Call.readback err actual_format])
      else if env.timedWait i ≠ 0 then
        some (format_set, [Call.readback err actual_format, Call.timedWait])
      else
        (pollLoop env change_format fuel (i + 1) format_set).map
          (fun r => (r.1, Call.readback err actual_format :: Call.timedWait :: r.2))

/-- The function `ca_change_physical_format_sync(ao, stream, change_format)` on a stream
answering as `env`; `none` when the loop does not end within `fuel` passes. The
`ca_print_asbd` log lines are left out. -/
def ca_change_physical_format_sync (env : StreamEnv)
    (change_format : AudioStreamBasicDescription) (fuel : Nat) : Option Outcome :=
  let format_set := false
  let prev_format := env.getPrev.2
  if CHECK_CA_ERROR env.getPrev.1 then
    some ⟨format_set, [Call.getPrevFormat]⟩
  else if CHECK_CA_ERROR env.addListener then
    some ⟨format_set, [Call.getPrevFormat, Call.addPropertyListener]⟩
  else
    let _warned := CHECK_CA_WARN env.setFormat
    match pollLoop env change_format fuel 0 format_set with
    | none => none
    | some (format_set, polled) =>
      let upto := [Call.getPrevFormat, Call.addPropertyListener,
        Call.setPhysicalFormat change_format] ++ polled ++ [Call.mutexUnlock]
      -- a failed restore is only logged (`CHECK_CA_WARN`)
      let rollback := if !format_set then [Call.setPhysicalFormat prev_format] else []
      -- a failed removal leaves for `coreaudio_error:`, the very next statement
      some ⟨format_set, upto ++ rollback ++ [Call.removePropertyListener]⟩

/-! ## Reading a trace of calls -/

def Call.isAdd : Call → Bool
  | Call.addPropertyListener => true
  | _ => false

def Call.isRemove : Call → Bool
  | Call.removePropertyListener => true
  | _ => false

def Call.isWait : Call → Bool
  | Call.timedWait => true
  | _ => false

/-- The formats written to the stream, in order. -/
def writes : List Call → List AudioStreamBasicDescription
  | [] => []
  | Call.setPhysicalFormat f :: cs => f :: writes cs
  | _ :: cs => writes cs

/-- The loop's reads of the physical format, in order, each with its status. -/
def readbacks : List Call → List (Int × AudioStreamBasicDescription)
  | [] => []
  | Call.readback e f :: cs => (e, f) :: readbacks cs
  | _ :: cs => readbacks cs

/-- The physical format of a stream that applies every write, after the calls, when it was
`initial` before them. -/
def formatAfter (initial : AudioStreamBasicDescription) (calls : List Call) :
    AudioStreamBasicDescription :=
  (writes calls).foldl (fun _ f => f) initial

/-! ## Vocabulary of the statements -/

/-- The descriptor is linear PCM with the given sample rate, channel count and bit depth; its
other fields are free. -/
def isPCM (d : AudioStreamBasicDescription) (rate channels bits : Nat) : Prop :=
  d.mSampleRate = Double.ofNat rate ∧ d.mChannelsPerFrame = channels ∧
    d.mBitsPerChannel = bits ∧ d.mFormatID = kAudioFormatLinearPCM

/-- A descriptor of a compressed stream with the given format tag. -/
def compressed (tag : Nat) : AudioStreamBasicDescription :=
  { pcm 48000 2 16 with mFormatID := tag }

/-- The byte-width check of `ca_asbd_is_better` passes: `value_is_better` on the bytes per
frame against 6 when `bytesflag` is 1, on the bits per channel against the requested ones
otherwise. -/
def widthPasses (req old new : AudioStreamBasicDescription) (bytesflag : Int) : Bool :=
  if bytesflag = 1 then
    value_is_better (Double.ofNat 6) (Double.ofNat old.mBytesPerFrame)
      (Double.ofNat new.mBytesPerFrame)
  else
    value_is_better (Double.ofNat req.mBitsPerChannel) (Double.ofNat old.mBitsPerChannel)
      (Double.ofNat new.mBitsPerChannel)

/-- The non-mixable bit of the descriptor's flags. -/
def nonMixableBit (d : AudioStreamBasicDescription) : Nat :=
  d.mFormatFlags &&& kAudioFormatFlagIsNonMixable

/-- A descriptor as `d` with the non-mixable flag set. -/
def nonMixable (d : AudioStreamBasicDescription) : AudioStreamBasicDescription :=
  { d with mFormatFlags := d.mFormatFlags ||| kAudioFormatFlagIsNonMixable }

/-- The calls of `n` passes of the loop from pass `i` on, each a read followed by a wait that
was woken. -/
def wakeCalls (env : StreamEnv) : Nat → Nat → List Call
  | _, 0 => []
  | i, n + 1 =>
    Call.readback (env.readback i).1 (env.readback i).2 :: Call.timedWait ::
      wakeCalls env (i + 1) n

/-- Pass `i` of the loop reads a format other than the target and its wait is woken. -/
def wokenAt (env : StreamEnv) (target : AudioStreamBasicDescription) (i : Nat) : Prop :=
  (env.readback i).1 = noErr ∧ ca_asbd_equals target (env.readback i).2 2 = false ∧
    env.timedWait i = 0

/-- Pass `i` of the loop ends it without a match: the read fails, or it reads a format other
than the target and the wait reports that the deadline has passed. -/
def abortsAt (env : StreamEnv) (target : AudioStreamBasicDescription) (i : Nat) : Prop :=
  (env.readback i).1 ≠ noErr ∨
    (ca_asbd_equals target (env.readback i).2 2 = false ∧ env.timedWait i ≠ 0)

/-- Pass `i` of the loop ends it, whichever way. -/
def endsAt (env : StreamEnv) (target : AudioStreamBasicDescription) (i : Nat) : Prop :=
  (env.readback i).1 ≠ noErr ∨ ca_asbd_equals target (env.readback i).2 2 = true ∨
    env.timedWait i ≠ 0

/-- The calls of the last pass `i` of a loop that ends without a match. -/
def abortCalls (env : StreamEnv) (i : Nat) : List Call :=
  if (env.readback i).1 = noErr then
    [Call.readback (env.readback i).1 (env.readback i).2, Call.timedWait]
  else
    [Call.readback (env.readback i).1 (env.readback i).2]

/-- A stream that answers every call with success and always reads back `active`; its first
`wakes` timed waits are woken and the later ones report that the deadline has passed. -/
def stuckStream (active : AudioStreamBasicDescription) (wakes : Nat) : StreamEnv where
  getPrev := (noErr, active)
  addListener := noErr
  setFormat := noErr
  readback := fun _ => (noErr, active)
  timedWait := fun i => if i < wakes then 0 else 1
  restore := noErr
  removeListener := noErr

/-- A stream as `stuckStream` that applies the switch after `wakes` wake-ups: from pass
`wakes` on it reads back `target`. -/
def switchingStream (active target : AudioStreamBasicDescription) (wakes : Nat) : StreamEnv :=
  { stuckStream active wakes with
    readback := fun i => if i < wakes then (noErr, active) else (noErr, target) }

/-- The descriptor `d` with the aligned-high flag set, a flag that mode 2 of `ca_asbd_equals`
does not compare. -/
def alignedHigh (d : AudioStreamBasicDescription) : AudioStreamBasicDescription :=
  { d with mFormatFlags := d.mFormatFlags ||| kAudioFormatFlagIsAlignedHigh }

/-- A descriptor whose sample rate is a NaN. -/
def nanFormat : AudioStreamBasicDescription :=
  { pcm 48000 2 16 with mSampleRate := Double.nan }

/-- The verdict of a call, the numbers of its reads in the loop and of its timed waits, and
the formats it wrote. -/
def summary (out : Outcome) : Bool × Nat × Nat × List AudioStreamBasicDescription :=
  (out.format_set, (readbacks out.calls).length, out.calls.countP Call.isWait,
    writes out.calls)

/-- The numbers of `AudioObjectAddPropertyListener` and `AudioObjectRemovePropertyListener`
calls of a call. -/
def listenerCalls (out : Outcome) : Nat × Nat :=
  (out.calls.countP Call.isAdd, out.calls.countP Call.isRemove)

/-- The descriptor `d` with other values of `mBytesPerPacket` and `mChannelsPerFrame`. -/
def withGeometry (d : AudioStreamBasicDescription) (bytesPerPacket channels : Nat) :
    AudioStreamBasicDescription :=
  { d with mBytesPerPacket := bytesPerPacket, mChannelsPerFrame := channels }

/-- The conjunction that the default branch and the mode 2 branch of `ca_asbd_equals` share,
for the flag mask `flags` of the branch. -/
def strictEquals (flags : Nat) (a b : AudioStreamBasicDescription) : Bool :=
  let spdif := ca_formatid_is_compressed a.mFormatID && ca_formatid_is_compressed b.mFormatID
  decide ((a.mFormatFlags &&& flags) = (b.mFormatFlags &&& flags)) &&
    decide (a.mBitsPerChannel = b.mBitsPerChannel) &&
    decide (ca_normalize_formatid a.mFormatID = ca_normalize_formatid b.mFormatID) &&
    (spdif || decide (a.mBytesPerPacket = b.mBytesPerPacket)) &&
    (spdif || decide (a.mChannelsPerFrame = b.mChannelsPerFrame)) &&
    Double.eq a.mSampleRate b.mSampleRate

/-- The flag mask of the branch of `ca_asbd_equals` that `mode` selects, for mode 2 and for
the default mode. -/
def strictMask (mode : Int) : Nat :=
  if mode = 2 then
    kAudioFormatFlagIsNonMixable ||| kAudioFormatFlagIsFloat |||
      kAudioFormatFlagIsSignedInteger ||| kAudioFormatFlagIsBigEndian
  else
    kAudioFormatFlagIsPacked ||| kAudioFormatFlagIsFloat |||
      kAudioFormatFlagIsSignedInteger ||| kAudioFormatFlagIsBigEndian

/-! ## Ranking: lemmas -/

theorem selectBest_three (M : Nat) (req c1 c2 c3 : AudioStreamBasicDescription)
    (hreq : isPCM req 48000 2 16) (h1 : isPCM c1 44100 2 16) (h2 : isPCM c2 48000 2 24)
    (h3 : isPCM c3 96000 2 16) :
    selectBest M req c1 [c2, c3] = if 2 ≤ M then c3 else c1 := by
  obtain ⟨hr1, hr2, hr3, hr4⟩ := hreq
  obtain ⟨ha1, ha2, ha3, ha4⟩ := h1
  obtain ⟨hb1, hb2, hb3, hb4⟩ := h2
  obtain ⟨hc1, hc2, hc3, hc4⟩ := h3
  by_cases hM : 2 ≤ M
  · have hM2 : ¬ (2 > M) := by omega
    simp [selectBest, ca_asbd_is_better, value_is_better, Double.ofNat, Double.ge, Double.le,
      Double.lt, hr1, hr2, hr3, hr4, ha1, ha2, ha3, ha4, hb1, hb2, hb3, hb4, hc1, hc2, hc3, hc4,
      hM, hM2]
    norm_num
  · have hM2 : 2 > M := by omega
    simp [selectBest, ca_asbd_is_better, hr2, ha2, hb2, hc2, hM, hM2]

theorem isPCM_pcm (rate channels bits : Nat) : isPCM (pcm rate channels bits) rate channels bits :=
  ⟨rfl, rfl, rfl, rfl⟩

/-- What `value_is_better` computes when no argument is a NaN, on finite values. -/
theorem value_is_better_finite (r a b : ℚ) :
    value_is_better (Double.finite r) (Double.finite a) (Double.finite b) =
      if r ≤ b then decide (a < r ∨ b ≤ a) else decide (a < r ∧ a ≤ b) := by
  simp [value_is_better, Double.ge, Double.le, Double.lt]

/-! ## Ranking: the claims -/

/-- C1, as stated, fails: whatever the channel maximum is, the selection over the three
candidates does not end with {48000, 2, 24, PCM}. -/
theorem selectBest_example_not_48000_24 :
    ¬ ∃ M : Nat, selectBest M (pcm 48000 2 16) (pcm 44100 2 16)
        [pcm 48000 2 24, pcm 96000 2 16] = pcm 48000 2 24 := by
  rintro ⟨M, h⟩
  rw [selectBest_three M _ _ _ _ (isPCM_pcm _ _ _) (isPCM_pcm _ _ _) (isPCM_pcm _ _ _)
    (isPCM_pcm _ _ _)] at h
  split at h
  · exact absurd h (by decide)
  · exact absurd h (by decide)

/-- C1 (amended): with both policy flags off and a channel maximum of at least 2, for
requested = {48000 Hz, 2 channels, 16 bit, LinearPCM} and the candidates {44100,2,16,PCM},
{48000,2,24,PCM}, {96000,2,16,PCM} in that order, successive pairwise comparison ends with
{96000,2,16,PCM}: the second candidate does not replace the first (its 24 bits overshoot the
requested 16, which the first meets exactly) and the third does. -/
theorem selectBest_example_ends_with_96000 (M : Nat) (hM : 2 ≤ M)
    (req c1 c2 c3 : AudioStreamBasicDescription)
    (hreq : isPCM req 48000 2 16) (h1 : isPCM c1 44100 2 16) (h2 : isPCM c2 48000 2 24)
    (h3 : isPCM c3 96000 2 16) :
    selectBest M req c1 [c2, c3] = c3 ∧
      ca_asbd_is_better M req c1 c2 0 0 = false ∧
      ca_asbd_is_better M req c1 c3 0 0 = true := by
  refine ⟨by rw [selectBest_three M req c1 c2 c3 hreq h1 h2 h3, if_pos hM], ?_, ?_⟩
  · obtain ⟨hr1, hr2, hr3, hr4⟩ := hreq
    obtain ⟨ha1, ha2, ha3, ha4⟩ := h1
    obtain ⟨hb1, hb2, hb3, hb4⟩ := h2
    have hM2 : ¬ (2 > M) := by omega
    simp [ca_asbd_is_better, value_is_better, Double.ofNat, Double.ge, Double.le,
      Double.lt, hr1, hr2, hr3, hr4, ha1, ha2, ha3, ha4, hb1, hb2, hb3, hb4, hM2]
  · obtain ⟨hr1, hr2, hr3, hr4⟩ := hreq
    obtain ⟨ha1, ha2, ha3, ha4⟩ := h1
    obtain ⟨hc1, hc2, hc3, hc4⟩ := h3
    have hM2 : ¬ (2 > M) := by omega
    simp [ca_asbd_is_better, value_is_better, Double.ofNat, Double.ge, Double.le,
      Double.lt, hr1, hr2, hr3, hr4, ha1, ha2, ha3, ha4, hc1, hc2, hc3, hc4, hM2]
    norm_num

/-- C1 (amended), at a channel maximum of 64 and packed signed-integer descriptors. -/
theorem selectBest_example_ends_with_96000_witness :
    selectBest 64 (pcm 48000 2 16) (pcm 44100 2 16) [pcm 48000 2 24, pcm 96000 2 16]
        = pcm 96000 2 16 ∧
      ca_asbd_is_better 64 (pcm 48000 2 16) (pcm 44100 2 16) (pcm 48000 2 24) 0 0 = false ∧
      ca_asbd_is_better 64 (pcm 48000 2 16) (pcm 44100 2 16) (pcm 96000 2 16) 0 0 = true :=
  selectBest_example_ends_with_96000 64 (by decide) _ _ _ _ (isPCM_pcm _ _ _) (isPCM_pcm _ _ _)
    (isPCM_pcm _ _ _) (isPCM_pcm _ _ _)

/-- C2: `ca_asbd_is_better` is false whenever `new` has more channels than `MP_NUM_CHANNELS`,
for every requested and old descriptor (old above the maximum included) and both flags. -/
theorem ca_asbd_is_better_rejects_too_many_channels (M : Nat)
    (req old new : AudioStreamBasicDescription) (mixableflag bytesflag : Int)
    (h : new.mChannelsPerFrame > M) :
    ca_asbd_is_better M req old new mixableflag bytesflag = false := by
  simp [ca_asbd_is_better, h]

/-- C2 at a 65-channel `new` against a 66-channel `old`, maximum 64, both flags set. -/
theorem ca_asbd_is_better_rejects_too_many_channels_witness :
    (pcm 48000 65 16).mChannelsPerFrame > 64 ∧
      ca_asbd_is_better 64 (pcm 48000 65 16) (pcm 48000 66 16) (pcm 48000 65 16) 1 1 = false :=
  ⟨by decide, ca_asbd_is_better_rejects_too_many_channels 64 _ _ _ 1 1 (by decide)⟩

/-- C3, as stated, fails: requested carries `kAudioFormat60958AC3`, new carries `'IAC3'` (the
same canonical kind), old is linear PCM (another kind), all with 2 channels; new is rejected
for every channel maximum and every setting of the flags. -/
theorem ca_asbd_is_better_same_kind_rejected :
    ca_normalize_formatid (compressed tag_IAC3).mFormatID =
        ca_normalize_formatid (compressed kAudioFormat60958AC3).mFormatID ∧
      ca_normalize_formatid (pcm 48000 2 16).mFormatID ≠
        ca_normalize_formatid (compressed kAudioFormat60958AC3).mFormatID ∧
      (pcm 48000 2 16).mChannelsPerFrame = 2 ∧ (compressed tag_IAC3).mChannelsPerFrame = 2 ∧
      ∀ (M : Nat) (mixableflag bytesflag : Int),
        ca_asbd_is_better M (compressed kAudioFormat60958AC3) (pcm 48000 2 16)
          (compressed tag_IAC3) mixableflag bytesflag = false := by
  refine ⟨by decide, by decide, rfl, rfl, ?_⟩
  intro M mixableflag bytesflag
  have h : (compressed kAudioFormat60958AC3).mFormatID ≠ (compressed tag_IAC3).mFormatID := by
    decide
  simp only [ca_asbd_is_better]
  split
  · rfl
  · split
    · rename_i h1 h2
      exact absurd h2 h1
    · simp [h]

/-- C3 (amended): for requested, old and new whose channel counts are within the maximum and
every setting of the flags, if new's format tag itself (`mFormatID`, not folded by
`ca_normalize_formatid`) equals requested's and old's format tag differs from requested's,
which is so whenever old's canonical kind differs from requested's, then
`ca_asbd_is_better` is true. -/
theorem ca_asbd_is_better_prefers_matching_tag (M : Nat)
    (req old new : AudioStreamBasicDescription) (mixableflag bytesflag : Int)
    (hnew : new.mChannelsPerFrame ≤ M) (hold : old.mChannelsPerFrame ≤ M)
    (hn : new.mFormatID = req.mFormatID)
    (ho : old.mFormatID ≠ req.mFormatID ∨
      ca_normalize_formatid old.mFormatID ≠ ca_normalize_formatid req.mFormatID) :
    ca_asbd_is_better M req old new mixableflag bytesflag = true := by
  have ho2 : req.mFormatID ≠ old.mFormatID := by
    rcases ho with h | h
    · exact fun e => h e.symm
    · exact fun e => h (by rw [e])
  have h1 : ¬ (new.mChannelsPerFrame > M) := by omega
  have h2 : ¬ (old.mChannelsPerFrame > M) := by omega
  simp [ca_asbd_is_better, h1, h2, hn, ho2]

/-- C3 (amended) at requested = new = an `'IAC3'` stream and old = linear PCM. -/
theorem ca_asbd_is_better_prefers_matching_tag_witness :
    ca_normalize_formatid (pcm 48000 2 16).mFormatID ≠
        ca_normalize_formatid (compressed tag_IAC3).mFormatID ∧
      ca_asbd_is_better 64 (compressed tag_IAC3) (pcm 48000 2 16) (compressed tag_IAC3) 0 0
        = true :=
  ⟨by decide, ca_asbd_is_better_prefers_matching_tag 64 _ _ _ 0 0 (by decide) (by decide) rfl
    (Or.inr (by decide))⟩

/-- C4, as stated, fails: a value below, equal to or above the requested value is reported
better than itself. -/
theorem value_is_better_self_true :
    value_is_better (Double.ofNat 48000) (Double.ofNat 44100) (Double.ofNat 44100) = true ∧
      value_is_better (Double.ofNat 48000) (Double.ofNat 48000) (Double.ofNat 48000) = true ∧
      value_is_better (Double.ofNat 48000) (Double.ofNat 96000) (Double.ofNat 96000) = true := by
  decide

/-- C4 (amended): `value_is_better(r, x, x)` is true for all r and x that are not NaN, whether
x is above, below or equal to r (equal values prefer the new one); it is false exactly when r
or x is a NaN. -/
theorem value_is_better_self (r x : Double) :
    value_is_better r x x = (r.isNum && x.isNum) := by
  cases r <;> cases x <;>
    simp [value_is_better, Double.ge, Double.le, Double.lt, Double.isNum]
  rename_i r x
  by_cases h : r ≤ x
  · simp [h]
  · simp [h]
    exact lt_of_not_le h

/-- C5: for a fixed requested value r, when a and b both meet the request, b is better than a
exactly when b <= a; when both fall short, exactly when b >= a; a value that meets the request
beats one that falls short, and one that falls short never beats one that meets it. -/
theorem value_is_better_prefers_closest (r a b : Double) :
    (Double.le r a = true → Double.le r b = true →
        (value_is_better r a b = true ↔ Double.le b a = true)) ∧
      (Double.lt a r = true → Double.lt b r = true →
        (value_is_better r a b = true ↔ Double.ge b a = true)) ∧
      (Double.ge b r = true → Double.lt a r = true → value_is_better r a b = true) ∧
      (Double.ge a r = true → Double.lt b r = true → value_is_better r a b = false) := by
  cases r <;> cases a <;> cases b <;>
    simp [value_is_better, Double.ge, Double.le, Double.lt]
  rename_i r a b
  refine ⟨?_, ?_, ?_, ?_⟩
  · intro h1 h2
    rw [if_pos h2]
    constructor
    · rintro (h | h)
      · exact absurd h1 (not_le.mpr h)
      · exact h
    · exact fun h => Or.inr h
  · intro h1 h2
    rw [if_neg (not_le.mpr h2)]
    exact ⟨fun h => h.2, fun h => ⟨h1, h⟩⟩
  · intro h1 h2
    rw [if_pos h1]
    exact Or.inl h2
  · intro h1 h2
    rw [if_neg (not_le.mpr h2)]
    intro h3
    exact absurd h1 (not_le.mpr h3)

/-- C5 at r = 48000: 48000 beats 96000 (both meet), 44100 beats 22050 (both short), 48000
beats 44100, and 44100 does not beat 48000. -/
theorem value_is_better_prefers_closest_witness :
    value_is_better (Double.ofNat 48000) (Double.ofNat 96000) (Double.ofNat 48000) = true ∧
      value_is_better (Double.ofNat 48000) (Double.ofNat 22050) (Double.ofNat 44100) = true ∧
      value_is_better (Double.ofNat 48000) (Double.ofNat 44100) (Double.ofNat 48000) = true ∧
      value_is_better (Double.ofNat 48000) (Double.ofNat 48000) (Double.ofNat 44100) = false :=
  ⟨((value_is_better_prefers_closest (Double.ofNat 48000) (Double.ofNat 96000)
        (Double.ofNat 48000)).1 (by decide) (by decide)).mpr (by decide),
    ((value_is_better_prefers_closest (Double.ofNat 48000) (Double.ofNat 22050)
        (Double.ofNat 44100)).2.1 (by decide) (by decide)).mpr (by decide),
    (value_is_better_prefers_closest (Double.ofNat 48000) (Double.ofNat 44100)
        (Double.ofNat 48000)).2.2.1 (by decide) (by decide),
    (value_is_better_prefers_closest (Double.ofNat 48000) (Double.ofNat 48000)
        (Double.ofNat 44100)).2.2.2 (by decide) (by decide)⟩

/-- C6: with `mixableflag = 1`, old and new within the channel maximum, both format tags equal
to requested's and the byte-width check passed: a new whose non-mixable bit differs from
requested's is rejected, even when old mismatches too; a new whose bit equals requested's is
accepted over an old whose bit differs, whatever their sample rates and channel counts. -/
theorem ca_asbd_is_better_mixability (M : Nat) (req old new : AudioStreamBasicDescription)
    (bytesflag : Int) (hnew : new.mChannelsPerFrame ≤ M) (hold : old.mChannelsPerFrame ≤ M)
    (hn : new.mFormatID = req.mFormatID) (ho : old.mFormatID = req.mFormatID)
    (hw : widthPasses req old new bytesflag = true) :
    (nonMixableBit new ≠ nonMixableBit req →
        ca_asbd_is_better M req old new 1 bytesflag = false) ∧
      (nonMixableBit new = nonMixableBit req → nonMixableBit old ≠ nonMixableBit req →
        ca_asbd_is_better M req old new 1 bytesflag = true) := by
  have h1 : ¬ (new.mChannelsPerFrame > M) := by omega
  have h2 : ¬ (old.mChannelsPerFrame > M) := by omega
  unfold nonMixableBit
  unfold widthPasses at hw
  constructor
  · intro hne
    have hne2 : ¬ (req.mFormatFlags &&& kAudioFormatFlagIsNonMixable) =
        (new.mFormatFlags &&& kAudioFormatFlagIsNonMixable) := fun e => hne e.symm
    by_cases hb : bytesflag = 1
    · rw [if_pos hb] at hw
      simp [ca_asbd_is_better, h1, h2, hn, ho, hb, hw, hne2]
    · rw [if_neg hb] at hw
      simp [ca_asbd_is_better, h1, h2, hn, ho, hb, hw, hne2]
  · intro he hne
    have hne2 : ¬ (req.mFormatFlags &&& kAudioFormatFlagIsNonMixable) =
        (old.mFormatFlags &&& kAudioFormatFlagIsNonMixable) := fun e => hne e.symm
    by_cases hb : bytesflag = 1
    · rw [if_pos hb] at hw
      simp [ca_asbd_is_better, h1, h2, hn, ho, hb, hw, he, hne2]
    · rw [if_neg hb] at hw
      simp [ca_asbd_is_better, h1, h2, hn, ho, hb, hw, he, hne2]

/-- C6 at a non-mixable request for 48000 Hz stereo 16 bit: a mixable new is rejected against
a mixable old, and a non-mixable 8000 Hz mono new is accepted over a mixable old that matches
the request in rate and channels. -/
theorem ca_asbd_is_better_mixability_witness :
    ca_asbd_is_better 64 (nonMixable (pcm 48000 2 16)) (pcm 48000 2 16) (pcm 48000 2 16) 1 0
        = false ∧
      ca_asbd_is_better 64 (nonMixable (pcm 48000 2 16)) (pcm 48000 2 16)
        (nonMixable (pcm 8000 1 16)) 1 0 = true :=
  ⟨(ca_asbd_is_better_mixability 64 (nonMixable (pcm 48000 2 16)) (pcm 48000 2 16)
      (pcm 48000 2 16) 0 (by decide) (by decide) rfl rfl (by decide)).1 (by decide),
    (ca_asbd_is_better_mixability 64 (nonMixable (pcm 48000 2 16)) (pcm 48000 2 16)
      (nonMixable (pcm 8000 1 16)) 0 (by decide) (by decide) rfl rfl (by decide)).2 (by decide)
      (by decide)⟩

/-! ## The switch: lemmas on the polling loop -/

theorem pollLoop_woken (env : StreamEnv) (target : AudioStreamBasicDescription) (n : Nat) :
    ∀ (i k : Nat), (∀ j, j < n → wokenAt env target (i + j)) →
      pollLoop env target (n + k) i false =
        (pollLoop env target k (i + n) false).map (fun r => (r.1, wakeCalls env i n ++ r.2)) := by
  induction n with
  | zero =>
    intro i k _
    simp [wakeCalls]
  | succ n ih =>
    intro i k h
    obtain ⟨h1, h2, h3⟩ := h 0 (Nat.succ_pos n)
    simp only [Nat.add_zero] at h1 h2 h3
    have hrest : ∀ j, j < n → wokenAt env target (i + 1 + j) := by
      intro j hj
      have := h (j + 1) (Nat.succ_lt_succ hj)
      rwa [show i + (j + 1) = i + 1 + j by omega] at this
    rw [show n + 1 + k = (n + k) + 1 by omega]
    simp only [pollLoop, CHECK_CA_ERROR, CHECK_CA_WARN, check_ca_st, h1, h2, h3]
    simp only [decide_True, Bool.not_true, Bool.false_eq_true, if_false, ne_eq,
      not_true_eq_false]
    rw [ih (i + 1) k hrest, show i + 1 + n = i + (n + 1) by omega]
    cases pollLoop env target k (i + (n + 1)) false <;> simp [wakeCalls, h1]

theorem pollLoop_abort (env : StreamEnv) (target : AudioStreamBasicDescription) (i k : Nat)
    (h : abortsAt env target i) :
    pollLoop env target (k + 1) i false = some (false, abortCalls env i) := by
  rcases h with h | ⟨h1, h2⟩
  · simp [pollLoop, CHECK_CA_ERROR, CHECK_CA_WARN, check_ca_st, abortCalls, h]
  · by_cases he : (env.readback i).1 = noErr
    · simp [pollLoop, CHECK_CA_ERROR, CHECK_CA_WARN, check_ca_st, abortCalls, he, h1, h2]
    · simp [pollLoop, CHECK_CA_ERROR, CHECK_CA_WARN, check_ca_st, abortCalls, he]

theorem pollLoop_match (env : StreamEnv) (target : AudioStreamBasicDescription) (i k : Nat)
    (fs : Bool) (h1 : (env.readback i).1 = noErr)
    (h2 : ca_asbd_equals target (env.readback i).2 2 = true) :
    pollLoop env target (k + 1) i fs =
      some (true, [Call.readback (env.readback i).1 (env.readback i).2]) := by
  simp [pollLoop, CHECK_CA_ERROR, CHECK_CA_WARN, check_ca_st, h1, h2]

theorem pollLoop_isSome (env : StreamEnv) (target : AudioStreamBasicDescription) (n : Nat) :
    ∀ (i fuel : Nat) (fs : Bool), endsAt env target (i + n) → n < fuel →
      (pollLoop env target fuel i fs).isSome = true := by
  induction n with
  | zero =>
    intro i fuel fs h hf
    obtain ⟨k, rfl⟩ : ∃ k, fuel = k + 1 := ⟨fuel - 1, by omega⟩
    simp only [Nat.add_zero] at h
    simp only [pollLoop]
    split
    · rfl
    · split
      · rfl
      · split
        · rfl
        · rename_i a b c
          simp [CHECK_CA_WARN, check_ca_st] at a
          simp at b c
          rcases h with h | h | h
          · exact absurd a h
          · rw [h] at b; exact absurd b (by simp)
          · exact absurd c h
  | succ n ih =>
    intro i fuel fs h hf
    obtain ⟨k, rfl⟩ : ∃ k, fuel = k + 1 := ⟨fuel - 1, by omega⟩
    simp only [pollLoop]
    split
    · rfl
    · split
      · rfl
      · split
        · rfl
        · have := ih (i + 1) k (ca_asbd_equals target (env.readback i).2 2)
            (by rwa [show i + 1 + n = i + (n + 1) by omega]) (by omega)
          simpa using this

theorem writes_append (xs ys : List Call) : writes (xs ++ ys) = writes xs ++ writes ys := by
  induction xs with
  | nil => rfl
  | cons c cs ih => cases c <;> simp [writes, ih]

theorem readbacks_append (xs ys : List Call) :
    readbacks (xs ++ ys) = readbacks xs ++ readbacks ys := by
  induction xs with
  | nil => rfl
  | cons c cs ih => cases c <;> simp [readbacks, ih]

theorem writes_wakeCalls (env : StreamEnv) (n : Nat) : ∀ i, writes (wakeCalls env i n) = [] := by
  induction n with
  | zero => intro i; rfl
  | succ n ih => intro i; simp [wakeCalls, writes, ih]

theorem readbacks_wakeCalls (env : StreamEnv) (n : Nat) :
    ∀ i, readbacks (wakeCalls env i n) = (List.range n).map (fun j => env.readback (i + j)) := by
  induction n with
  | zero => intro i; rfl
  | succ n ih =>
    intro i
    simp only [wakeCalls, readbacks, ih, List.range_succ_eq_map, List.map_cons, List.map_map]
    simp only [Nat.add_zero, List.cons.injEq, true_and]
    apply List.map_congr_left
    intro j _
    simp only [Function.comp, Nat.succ_eq_add_one]
    rw [show i + 1 + j = i + (j + 1) by omega]

theorem count_wakeCalls (env : StreamEnv) (n : Nat) :
    ∀ i, (wakeCalls env i n).countP Call.isWait = n ∧
      (wakeCalls env i n).countP Call.isAdd = 0 ∧
      (wakeCalls env i n).countP Call.isRemove = 0 := by
  induction n with
  | zero => intro i; simp [wakeCalls]
  | succ n ih =>
    intro i
    obtain ⟨h1, h2, h3⟩ := ih (i + 1)
    simp [wakeCalls, List.countP_cons, Call.isWait, Call.isAdd, Call.isRemove, h1, h2, h3]

/-- The loop itself installs and removes no listener and writes no format. -/
theorem pollLoop_calls (env : StreamEnv) (target : AudioStreamBasicDescription) (fuel : Nat) :
    ∀ (i : Nat) (fs : Bool) (r : Bool × List Call), pollLoop env target fuel i fs = some r →
      r.2.countP Call.isAdd = 0 ∧ r.2.countP Call.isRemove = 0 ∧ writes r.2 = [] := by
  induction fuel with
  | zero => intro i fs r h; simp [pollLoop] at h
  | succ fuel ih =>
    intro i fs r h
    simp only [pollLoop] at h
    split at h
    · cases h; simp [Call.isAdd, Call.isRemove, writes]
    · split at h
      · cases h; simp [Call.isAdd, Call.isRemove, writes]
      · split at h
        · cases h; simp [Call.isAdd, Call.isRemove, writes]
        · cases hr : pollLoop env target fuel (i + 1)
              (ca_asbd_equals target (env.readback i).2 2) with
          | none => rw [hr] at h; simp at h
          | some r' =>
            rw [hr] at h
            obtain ⟨h1, h2, h3⟩ := ih _ _ _ hr
            simp only [Option.map_some', Option.some.injEq] at h
            subst h
            simp [List.countP_cons, Call.isAdd, Call.isRemove, writes, h1, h2, h3]

/-- A loop entered with `format_set` false leaves with `format_set` true only when its last
read succeeded and read a format equal to the target under mode 2. -/
theorem pollLoop_true (env : StreamEnv) (target : AudioStreamBasicDescription) (fuel : Nat) :
    ∀ (i : Nat) (r : Bool × List Call), pollLoop env target fuel i false = some r →
      r.1 = true →
      ∃ f, (readbacks r.2).getLast? = some (noErr, f) ∧ ca_asbd_equals target f 2 = true := by
  induction fuel with
  | zero => intro i r h; simp [pollLoop] at h
  | succ fuel ih =>
    intro i r h hr
    simp only [pollLoop] at h
    split at h
    · cases h; simp at hr
    · rename_i hok
      simp [CHECK_CA_WARN, check_ca_st] at hok
      split at h
      · rename_i heq
        cases h
        exact ⟨(env.readback i).2, by simp [readbacks, hok], heq⟩
      · rename_i hne
        simp only [Bool.not_eq_true] at hne
        split at h
        · cases h; simp [hne] at hr
        · rw [hne] at h
          cases hp : pollLoop env target fuel (i + 1) false with
          | none => rw [hp] at h; simp at h
          | some r' =>
            rw [hp] at h
            simp only [Option.map_some', Option.some.injEq] at h
            subst h
            obtain ⟨f, hf1, hf2⟩ := ih _ _ hp hr
            refine ⟨f, ?_, hf2⟩
            simp only [readbacks]
            cases hl : readbacks r'.2 with
            | nil => rw [hl] at hf1; simp at hf1
            | cons b l => rw [hl] at hf1; simpa [List.getLast?_cons_cons] using hf1

/-- Once the format before switching is read and the listener installed, the function is the
loop followed by the unlock, the rollback when `format_set` is false, and the removal. -/
theorem sync_after_install (env : StreamEnv) (target : AudioStreamBasicDescription)
    (fuel : Nat) (hp : env.getPrev.1 = noErr) (ha : env.addListener = noErr) :
    ca_change_physical_format_sync env target fuel =
      (pollLoop env target fuel 0 false).map (fun r =>
        ⟨r.1, [Call.getPrevFormat, Call.addPropertyListener, Call.setPhysicalFormat target] ++
          r.2 ++ [Call.mutexUnlock] ++
          (if !r.1 then [Call.setPhysicalFormat env.getPrev.2] else []) ++
          [Call.removePropertyListener]⟩) := by
  simp only [ca_change_physical_format_sync, CHECK_CA_ERROR, CHECK_CA_WARN, check_ca_st, hp, ha]
  cases pollLoop env target fuel 0 false <;> simp

/-- The whole call when the loop is woken `n` times without a match and pass `n` ends it
without a match. -/
theorem sync_abort (env : StreamEnv) (target : AudioStreamBasicDescription) (n fuel : Nat)
    (hp : env.getPrev.1 = noErr) (ha : env.addListener = noErr)
    (hwake : ∀ j, j < n → wokenAt env target j) (hend : abortsAt env target n)
    (hfuel : n < fuel) :
    ca_change_physical_format_sync env target fuel =
      some ⟨false, [Call.getPrevFormat, Call.addPropertyListener,
        Call.setPhysicalFormat target] ++ (wakeCalls env 0 n ++ abortCalls env n) ++
        [Call.mutexUnlock] ++ [Call.setPhysicalFormat env.getPrev.2] ++
        [Call.removePropertyListener]⟩ := by
  obtain ⟨k, rfl⟩ : ∃ k, fuel = n + (k + 1) := ⟨fuel - n - 1, by omega⟩
  have hw : ∀ j, j < n → wokenAt env target (0 + j) := by
    intro j hj; rw [Nat.zero_add]; exact hwake j hj
  rw [sync_after_install env target _ hp ha, pollLoop_woken env target n 0 (k + 1) hw,
    Nat.zero_add, pollLoop_abort env target n k hend]
  simp

theorem Double.eq_self (x : Double) (h : x.isNum = true) : Double.eq x x = true := by
  cases x <;> simp [Double.eq, Double.isNum] at h ⊢

theorem ca_asbd_equals_self_mode2 (a : AudioStreamBasicDescription)
    (h : a.mSampleRate.isNum = true) : ca_asbd_equals a a 2 = true := by
  simp [ca_asbd_equals, Double.eq_self _ h]

/-- The loop consults the stream only through its reads and its timed waits. -/
theorem pollLoop_congr (env env' : StreamEnv) (target : AudioStreamBasicDescription)
    (h1 : env.readback = env'.readback) (h2 : env.timedWait = env'.timedWait) (fuel : Nat) :
    ∀ (i : Nat) (fs : Bool), pollLoop env target fuel i fs = pollLoop env' target fuel i fs := by
  induction fuel with
  | zero => intro i fs; rfl
  | succ fuel ih =>
    intro i fs
    simp only [pollLoop, h1, h2, ih]

theorem writes_abortCalls (env : StreamEnv) (n : Nat) : writes (abortCalls env n) = [] := by
  unfold abortCalls
  split <;> rfl

theorem readbacks_abortCalls (env : StreamEnv) (n : Nat) :
    readbacks (abortCalls env n) = [env.readback n] := by
  unfold abortCalls
  split <;> rfl

theorem waits_abortCalls (env : StreamEnv) (n : Nat) :
    (abortCalls env n).countP Call.isWait = if (env.readback n).1 = noErr then 1 else 0 := by
  unfold abortCalls
  split <;> simp [List.countP_cons, Call.isWait]

/-! ## The switch: the claims -/

/-- C7, as stated, fails: when the initial read of the format fails the call makes no
listener call at all, and when installing the listener fails it makes the one
`AudioObjectAddPropertyListener` call and no `AudioObjectRemovePropertyListener` call. -/
theorem listener_calls_on_early_exit :
    (∀ fuel, (ca_change_physical_format_sync
        { stuckStream (pcm 44100 2 16) 0 with getPrev := (-50, pcm 44100 2 16) }
        (pcm 48000 2 24) fuel).map listenerCalls = some (0, 0)) ∧
      (∀ fuel, (ca_change_physical_format_sync
        { stuckStream (pcm 44100 2 16) 0 with addListener := -50 }
        (pcm 48000 2 24) fuel).map listenerCalls = some (1, 0)) := by
  constructor <;> intro fuel <;> rfl

/-- C7 (amended): a call whose initial format read and listener installation both succeed
makes exactly one `AudioObjectAddPropertyListener` and exactly one
`AudioObjectRemovePropertyListener` call on every later exit path (success, timeout, readback
failure), and it does return once some pass of the loop ends it; a call whose initial read
fails returns having made neither call; a call whose listener installation fails returns
having made the one add call and no remove call. -/
theorem listener_calls_per_exit_path (env : StreamEnv)
    (target : AudioStreamBasicDescription) :
    (env.getPrev.1 = noErr → env.addListener = noErr →
        (∀ fuel out, ca_change_physical_format_sync env target fuel = some out →
          listenerCalls out = (1, 1)) ∧
        (∀ n fuel, endsAt env target n → n < fuel →
          ∃ out, ca_change_physical_format_sync env target fuel = some out)) ∧
      (env.getPrev.1 ≠ noErr →
        ∀ fuel, ∃ out, ca_change_physical_format_sync env target fuel = some out ∧
          listenerCalls out = (0, 0)) ∧
      (env.getPrev.1 = noErr → env.addListener ≠ noErr →
        ∀ fuel, ∃ out, ca_change_physical_format_sync env target fuel = some out ∧
          listenerCalls out = (1, 0)) := by
  refine ⟨?_, ?_, ?_⟩
  · intro hp ha
    constructor
    · intro fuel out h
      rw [sync_after_install env target fuel hp ha] at h
      cases hr : pollLoop env target fuel 0 false with
      | none => rw [hr] at h; simp at h
      | some r =>
        rw [hr] at h
        obtain ⟨h1, h2, _⟩ := pollLoop_calls env target fuel 0 false r hr
        simp only [Option.map_some', Option.some.injEq] at h
        subst h
        cases hb : r.1 <;>
          simp [listenerCalls, List.countP_append, List.countP_cons, Call.isAdd, Call.isRemove,
            h1, h2]
    · intro n fuel hn hf
      have hs := pollLoop_isSome env target n 0 fuel false (by rwa [Nat.zero_add]) hf
      rw [sync_after_install env target fuel hp ha]
      cases hr : pollLoop env target fuel 0 false with
      | none => rw [hr] at hs; simp at hs
      | some r => exact ⟨_, rfl⟩
  · intro hp fuel
    refine ⟨⟨false, [Call.getPrevFormat]⟩, ?_, ?_⟩
    · simp [ca_change_physical_format_sync, CHECK_CA_ERROR, CHECK_CA_WARN, check_ca_st, hp]
    · simp [listenerCalls, Call.isAdd, Call.isRemove]
  · intro hp ha fuel
    refine ⟨⟨false, [Call.getPrevFormat, Call.addPropertyListener]⟩, ?_, ?_⟩
    · simp [ca_change_physical_format_sync, CHECK_CA_ERROR, CHECK_CA_WARN, check_ca_st, hp,
        ha]
    · simp [listenerCalls, Call.isAdd, Call.isRemove]

/-- C7 (amended) on a stream whose first wait times out: the call returns with one add and one
remove call. -/
theorem listener_calls_per_exit_path_witness :
    ∃ out, ca_change_physical_format_sync (stuckStream (pcm 44100 2 16) 0) (pcm 48000 2 24) 1
        = some out ∧ listenerCalls out = (1, 1) :=
  have h := (listener_calls_per_exit_path (stuckStream (pcm 44100 2 16) 0) (pcm 48000 2 24)).1
    rfl rfl
  (h.2 0 1 (Or.inr (Or.inr (by decide))) (by decide)).elim
    (fun out hout => ⟨out, hout, h.1 1 out hout⟩)

/-- C8: once the listener is installed, when the loop is woken `n` times without a match and
pass `n` ends it without a match (its read fails, or its wait reports the deadline passed),
the call returns false; the last format it writes is the one read before the mutation, so a
stream that applies writes holds that format after the call; the loop's reads are those of
passes 0 to `n` and no more, and a failed read is followed by no wait. -/
theorem rollback_after_abort (env : StreamEnv) (target : AudioStreamBasicDescription)
    (n fuel : Nat) (hp : env.getPrev.1 = noErr) (ha : env.addListener = noErr)
    (hwake : ∀ j, j < n → wokenAt env target j) (hend : abortsAt env target n)
    (hfuel : n < fuel) :
    ∃ out, ca_change_physical_format_sync env target fuel = some out ∧
      out.format_set = false ∧
      (writes out.calls).getLast? = some env.getPrev.2 ∧
      (∀ initial, formatAfter initial out.calls = env.getPrev.2) ∧
      readbacks out.calls = (List.range (n + 1)).map env.readback ∧
      out.calls.countP Call.isWait = (if (env.readback n).1 = noErr then n + 1 else n) := by
  refine ⟨_, sync_abort env target n fuel hp ha hwake hend hfuel, rfl, ?_, ?_, ?_, ?_⟩
  · simp [writes_append, writes_wakeCalls, writes_abortCalls, writes]
  · intro initial
    simp [formatAfter, writes_append, writes_wakeCalls, writes_abortCalls, writes]
  · simp [readbacks_append, readbacks_wakeCalls, readbacks_abortCalls, readbacks,
      List.range_succ]
  · simp only [List.countP_append, (count_wakeCalls env n 0).1, waits_abortCalls]
    split <;> simp [List.countP_cons, Call.isWait]

/-- C8 on a 44100 Hz stream that never switches to the 48000 Hz target and is woken twice
before the deadline passes. -/
theorem rollback_after_abort_witness :
    ∃ out, ca_change_physical_format_sync (stuckStream (pcm 44100 2 16) 2) (pcm 48000 2 24) 3
        = some out ∧
      out.format_set = false ∧
      (writes out.calls).getLast? = some (pcm 44100 2 16) ∧
      (∀ initial, formatAfter initial out.calls = pcm 44100 2 16) ∧
      readbacks out.calls = (List.range 3).map (stuckStream (pcm 44100 2 16) 2).readback ∧
      out.calls.countP Call.isWait = 3 :=
  rollback_after_abort (stuckStream (pcm 44100 2 16) 2) (pcm 48000 2 24) 2 3 rfl rfl
    (fun j hj => ⟨rfl,
      (by decide : ca_asbd_equals (pcm 48000 2 24) (pcm 44100 2 16) 2 = false),
      by simp [stuckStream, hj]⟩)
    (Or.inr ⟨by decide, by decide⟩) (by decide)

/-- C9: when the target equals the stream's already-active physical format, so that the
first read after the mutation succeeds and reads a format equal to the target under mode 2
of `ca_asbd_equals`, the call returns true after exactly one read in the loop, no timed wait
and no rollback write. -/
theorem same_format_commits_at_once (env : StreamEnv) (target : AudioStreamBasicDescription)
    (fuel : Nat) (hp : env.getPrev.1 = noErr) (ha : env.addListener = noErr)
    (hr : (env.readback 0).1 = noErr)
    (heq : ca_asbd_equals target (env.readback 0).2 2 = true) (hfuel : 0 < fuel) :
    ca_change_physical_format_sync env target fuel =
      some ⟨true, [Call.getPrevFormat, Call.addPropertyListener, Call.setPhysicalFormat target,
        Call.readback noErr (env.readback 0).2, Call.mutexUnlock,
        Call.removePropertyListener]⟩ := by
  obtain ⟨k, rfl⟩ : ∃ k, fuel = k + 1 := ⟨fuel - 1, by omega⟩
  rw [sync_after_install env target _ hp ha, pollLoop_match env target 0 k false hr heq, hr]
  rfl

/-- C9 on a stream already at 48000 Hz, 2 channels, 24 bit, whose active format carries the
aligned-high flag that mode 2 does not compare: one read, no wait, the one write of the
target. -/
theorem same_format_commits_at_once_witness :
    (ca_change_physical_format_sync (stuckStream (alignedHigh (pcm 48000 2 24)) 0)
        (pcm 48000 2 24) 1).map summary = some (true, 1, 0, [pcm 48000 2 24]) :=
  congrArg (Option.map summary)
    (same_format_commits_at_once (stuckStream (alignedHigh (pcm 48000 2 24)) 0)
      (pcm 48000 2 24) 1 rfl rfl rfl (by decide) (by decide))

/-- C10: the call returns true only if the loop's last read succeeded and read a format equal
to the target under mode 2; a loop woken any number `n` of times, each read not matching,
and then ended without a match returns false; and the status of the mutation request does
not enter the result. -/
theorem never_commits_falsely (env : StreamEnv) (target : AudioStreamBasicDescription)
    (fuel : Nat) :
    (∀ out, ca_change_physical_format_sync env target fuel = some out →
        out.format_set = true →
        ∃ f, (readbacks out.calls).getLast? = some (noErr, f) ∧
          ca_asbd_equals target f 2 = true) ∧
      (∀ n, env.getPrev.1 = noErr → env.addListener = noErr →
        (∀ j, j < n → wokenAt env target j) → abortsAt env target n → n < fuel →
        (ca_change_physical_format_sync env target fuel).map Outcome.format_set = some false) ∧
      (∀ status, ca_change_physical_format_sync { env with setFormat := status } target fuel =
        ca_change_physical_format_sync env target fuel) := by
  refine ⟨?_, ?_, ?_⟩
  · intro out h ht
    by_cases hp : env.getPrev.1 = noErr
    · by_cases ha : env.addListener = noErr
      · rw [sync_after_install env target fuel hp ha] at h
        cases hr : pollLoop env target fuel 0 false with
        | none => rw [hr] at h; simp at h
        | some r =>
          rw [hr] at h
          simp only [Option.map_some', Option.some.injEq] at h
          subst h
          obtain ⟨f, hf1, hf2⟩ := pollLoop_true env target fuel 0 r hr ht
          refine ⟨f, ?_, hf2⟩
          have hrt : r.1 = true := ht
          simp only [readbacks_append, hrt]
          simpa [readbacks] using hf1
      · simp [ca_change_physical_format_sync, CHECK_CA_ERROR, CHECK_CA_WARN, check_ca_st, hp,
          ha] at h
        subst h
        simp at ht
    · simp [ca_change_physical_format_sync, CHECK_CA_ERROR, CHECK_CA_WARN, check_ca_st, hp] at h
      subst h
      simp at ht
  · intro n hp ha hwake hend hfuel
    rw [sync_abort env target n fuel hp ha hwake hend hfuel]
    rfl
  · intro status
    simp only [ca_change_physical_format_sync]
    rw [pollLoop_congr { env with setFormat := status } env target rfl rfl]

/-- C10 on a 44100 Hz stream woken twice before it reads back the 48000 Hz target (the call
returns true and its last read is the target, which equals itself under mode 2), and on one
that is woken twice, never switches and then times out (the call returns false). -/
theorem never_commits_falsely_witness :
    (∃ f, (readbacks [Call.getPrevFormat, Call.addPropertyListener,
          Call.setPhysicalFormat (pcm 48000 2 24), Call.readback noErr (pcm 44100 2 16),
          Call.timedWait, Call.readback noErr (pcm 44100 2 16), Call.timedWait,
          Call.readback noErr (pcm 48000 2 24), Call.mutexUnlock,
          Call.removePropertyListener]).getLast? = some (noErr, f) ∧
        ca_asbd_equals (pcm 48000 2 24) f 2 = true) ∧
      (ca_change_physical_format_sync (stuckStream (pcm 44100 2 16) 2) (pcm 48000 2 24) 3).map
        Outcome.format_set = some false :=
  ⟨(never_commits_falsely (switchingStream (pcm 44100 2 16) (pcm 48000 2 24) 2)
      (pcm 48000 2 24) 3).1 _ rfl rfl,
    (never_commits_falsely (stuckStream (pcm 44100 2 16) 2) (pcm 48000 2 24) 3).2.1 2 rfl rfl
      (fun j hj => ⟨rfl,
        (by decide : ca_asbd_equals (pcm 48000 2 24) (pcm 44100 2 16) 2 = false),
        by simp [stuckStream, hj]⟩)
      (Or.inr ⟨by decide, by decide⟩) (by decide)⟩

/-! ## Descriptor equality: lemmas -/

/-- Descriptors of one canonical kind are both compressed or both not: the canonical tag of
the compressed ones is itself a compressed tag. -/
theorem compressed_eq_of_normalize_eq (x y : Nat)
    (h : ca_normalize_formatid x = ca_normalize_formatid y) :
    ca_formatid_is_compressed x = ca_formatid_is_compressed y := by
  have hc : ca_formatid_is_compressed kAudioFormat60958AC3 = true := by decide
  unfold ca_normalize_formatid at h
  cases hx : ca_formatid_is_compressed x <;> cases hy : ca_formatid_is_compressed y
  · rfl
  · rw [hx, hy] at h
    simp only [Bool.false_eq_true, if_false, if_true] at h
    rw [h, hc] at hx
    exact absurd hx (by simp)
  · rw [hx, hy] at h
    simp only [Bool.false_eq_true, if_false, if_true] at h
    rw [← h, hc] at hy
    exact absurd hy (by simp)
  · rfl

theorem Double.eq_symm (x y : Double) : Double.eq x y = Double.eq y x := by
  cases x <;> cases y <;> simp [Double.eq, eq_comm]

theorem Double.eq_trans (x y z : Double) (h1 : Double.eq x y = true)
    (h2 : Double.eq y z = true) : Double.eq x z = true := by
  cases x <;> cases y <;> cases z <;> simp_all [Double.eq]

theorem Double.eq_of_eq (x y : Double) (h : Double.eq x y = true) : x = y := by
  cases x <;> cases y <;> simp_all [Double.eq]

/-! ## Descriptor equality: the claims -/

/-- C11: in every mode, when both a and b carry a compressed format tag, replacing
`mBytesPerPacket` and `mChannelsPerFrame` of a and of b by any other values leaves the verdict
of `ca_asbd_equals` unchanged. -/
theorem ca_asbd_equals_compressed_ignores_geometry (a b : AudioStreamBasicDescription)
    (mode : Int) (pa ca pb cb : Nat)
    (ha : ca_formatid_is_compressed a.mFormatID = true)
    (hb : ca_formatid_is_compressed b.mFormatID = true) :
    ca_asbd_equals (withGeometry a pa ca) (withGeometry b pb cb) mode =
      ca_asbd_equals a b mode := by
  simp [ca_asbd_equals, withGeometry, ha, hb]

/-- C11 at an `'IAC3'` and an `'ac-3'` descriptor in the default mode: they are equal whether
their packet sizes and channel counts agree or not. -/
theorem ca_asbd_equals_compressed_ignores_geometry_witness :
    ca_asbd_equals (withGeometry (compressed tag_IAC3) 6144 6)
        (withGeometry (compressed kAudioFormatAC3) 1536 2) 0 = true ∧
      ca_asbd_equals (compressed tag_IAC3) (compressed kAudioFormatAC3) 0 = true :=
  ⟨(ca_asbd_equals_compressed_ignores_geometry (compressed tag_IAC3)
      (compressed kAudioFormatAC3) 0 6144 6 1536 2 (by decide) (by decide)).trans (by decide),
    by decide⟩

/-- C12, as stated, fails: in the default mode an `'IAC3'` descriptor with 6144 bytes per
packet and 6 channels equals an `'ac-3'` one with 1536 bytes per packet and 2 channels. -/
theorem ca_asbd_equals_default_compressed_differ :
    ca_asbd_equals (withGeometry (compressed tag_IAC3) 6144 6)
        (withGeometry (compressed kAudioFormatAC3) 1536 2) 0 = true ∧
      (withGeometry (compressed tag_IAC3) 6144 6).mBytesPerPacket ≠
        (withGeometry (compressed kAudioFormatAC3) 1536 2).mBytesPerPacket ∧
      (withGeometry (compressed tag_IAC3) 6144 6).mChannelsPerFrame ≠
        (withGeometry (compressed kAudioFormatAC3) 1536 2).mChannelsPerFrame := by
  decide

/-- C12 (amended): in the default mode (`integer_mode_hack` not 1, 2 or 3), whenever
`ca_asbd_equals(a, b)` is true and a and b do not both carry a compressed format tag, a and b
have equal `mBytesPerPacket` and equal `mChannelsPerFrame`. -/
theorem ca_asbd_equals_default_geometry (a b : AudioStreamBasicDescription) (mode : Int)
    (h1 : mode ≠ 1) (h2 : mode ≠ 2) (h3 : mode ≠ 3)
    (hspdif : ¬ (ca_formatid_is_compressed a.mFormatID = true ∧
      ca_formatid_is_compressed b.mFormatID = true))
    (h : ca_asbd_equals a b mode = true) :
    a.mBytesPerPacket = b.mBytesPerPacket ∧ a.mChannelsPerFrame = b.mChannelsPerFrame := by
  simp only [ca_asbd_equals, h1, h2, h3, if_false, Bool.and_eq_true, Bool.or_eq_true,
    decide_eq_true_eq] at h
  obtain ⟨⟨⟨⟨_, _⟩, hp⟩, hc⟩, _⟩ := h
  exact ⟨hp.resolve_left hspdif, hc.resolve_left hspdif⟩

/-- C12 (amended) at a mixable and a non-mixable linear PCM descriptor, which the default
mode holds equal. -/
theorem ca_asbd_equals_default_geometry_witness :
    ca_asbd_equals (pcm 48000 2 16) (nonMixable (pcm 48000 2 16)) 0 = true ∧
      (pcm 48000 2 16).mBytesPerPacket = (nonMixable (pcm 48000 2 16)).mBytesPerPacket ∧
      (pcm 48000 2 16).mChannelsPerFrame = (nonMixable (pcm 48000 2 16)).mChannelsPerFrame :=
  ⟨by decide,
    ca_asbd_equals_default_geometry (pcm 48000 2 16) (nonMixable (pcm 48000 2 16)) 0
      (by decide) (by decide) (by decide) (by decide) (by decide)⟩

/-- C13: in every mode, `ca_asbd_equals(a, b, mode)` being true implies that a and b have the
same canonical format kind and sample rates that are equal under `==`, which are then the
same value. -/
theorem ca_asbd_equals_kind_and_rate (a b : AudioStreamBasicDescription) (mode : Int)
    (h : ca_asbd_equals a b mode = true) :
    ca_normalize_formatid a.mFormatID = ca_normalize_formatid b.mFormatID ∧
      Double.eq a.mSampleRate b.mSampleRate = true ∧ a.mSampleRate = b.mSampleRate := by
  have key : ca_normalize_formatid a.mFormatID = ca_normalize_formatid b.mFormatID ∧
      Double.eq a.mSampleRate b.mSampleRate = true := by
    by_cases h1 : mode = 1
    · simp only [ca_asbd_equals, h1, if_true, Bool.and_eq_true, decide_eq_true_eq] at h
      exact ⟨h.1.1.1.2, h.2⟩
    · by_cases h2 : mode = 2
      · simp only [ca_asbd_equals, h2, if_true, Bool.and_eq_true, decide_eq_true_eq] at h
        simp at h
        exact ⟨h.1.1.1.2, h.2⟩
      · by_cases h3 : mode = 3
        · simp only [ca_asbd_equals, h3, if_true, Bool.and_eq_true, decide_eq_true_eq] at h
          simp at h
          exact ⟨h.1.1.1.2, h.2⟩
        · simp only [ca_asbd_equals, h1, h2, h3, if_false, Bool.and_eq_true,
            decide_eq_true_eq] at h
          exact ⟨h.1.1.1.2, h.2⟩
  exact ⟨key.1, key.2, Double.eq_of_eq _ _ key.2⟩

/-- C13 at a 24 bit and a 16 bit descriptor of one rate, which mode 1 holds equal. -/
theorem ca_asbd_equals_kind_and_rate_witness :
    ca_asbd_equals (pcm 48000 2 24) (withGeometry (pcm 48000 2 16) 6 2) 1 = true ∧
      ca_normalize_formatid (pcm 48000 2 24).mFormatID =
        ca_normalize_formatid (withGeometry (pcm 48000 2 16) 6 2).mFormatID ∧
      Double.eq (pcm 48000 2 24).mSampleRate (withGeometry (pcm 48000 2 16) 6 2).mSampleRate
        = true ∧
      (pcm 48000 2 24).mSampleRate = (withGeometry (pcm 48000 2 16) 6 2).mSampleRate :=
  ⟨by decide,
    ca_asbd_equals_kind_and_rate (pcm 48000 2 24) (withGeometry (pcm 48000 2 16) 6 2) 1
      (by decide)⟩

theorem ca_asbd_equals_strict (a b : AudioStreamBasicDescription) (mode : Int)
    (hmode : mode = 2 ∨ (mode ≠ 1 ∧ mode ≠ 2 ∧ mode ≠ 3)) :
    ca_asbd_equals a b mode = strictEquals (strictMask mode) a b := by
  rcases hmode with h | ⟨h1, h2, h3⟩
  · subst h
    simp [ca_asbd_equals, strictEquals, strictMask]
  · simp [ca_asbd_equals, strictEquals, strictMask, h1, h2, h3]

theorem strictEquals_iff (flags : Nat) (a b : AudioStreamBasicDescription) :
    strictEquals flags a b = true ↔
      (a.mFormatFlags &&& flags) = (b.mFormatFlags &&& flags) ∧
      a.mBitsPerChannel = b.mBitsPerChannel ∧
      ca_normalize_formatid a.mFormatID = ca_normalize_formatid b.mFormatID ∧
      (ca_formatid_is_compressed a.mFormatID = true ∨ a.mBytesPerPacket = b.mBytesPerPacket) ∧
      (ca_formatid_is_compressed a.mFormatID = true ∨
        a.mChannelsPerFrame = b.mChannelsPerFrame) ∧
      Double.eq a.mSampleRate b.mSampleRate = true := by
  simp only [strictEquals, Bool.and_eq_true, Bool.or_eq_true, decide_eq_true_eq]
  constructor
  · rintro ⟨⟨⟨⟨⟨h1, h2⟩, h3⟩, h4⟩, h5⟩, h6⟩
    exact ⟨h1, h2, h3, h4.imp_left (fun h => h.1), h5.imp_left (fun h => h.1), h6⟩
  · rintro ⟨h1, h2, h3, h4, h5, h6⟩
    have hc := compressed_eq_of_normalize_eq _ _ h3
    exact ⟨⟨⟨⟨⟨h1, h2⟩, h3⟩, h4.imp_left (fun h => ⟨h, hc ▸ h⟩)⟩,
      h5.imp_left (fun h => ⟨h, hc ▸ h⟩)⟩, h6⟩

/-- C17: in the default mode and in mode 2, `ca_asbd_equals` is reflexive on descriptors whose
sample rate is not a NaN, symmetric and transitive, compressed format tags included. -/
theorem ca_asbd_equals_equivalence (a b c : AudioStreamBasicDescription) (mode : Int)
    (hmode : mode = 2 ∨ (mode ≠ 1 ∧ mode ≠ 2 ∧ mode ≠ 3)) :
    (a.mSampleRate.isNum = true → ca_asbd_equals a a mode = true) ∧
      (ca_asbd_equals a b mode = true → ca_asbd_equals b a mode = true) ∧
      (ca_asbd_equals a b mode = true → ca_asbd_equals b c mode = true →
        ca_asbd_equals a c mode = true) := by
  refine ⟨?_, ?_, ?_⟩
  · intro h
    rw [ca_asbd_equals_strict a a mode hmode, strictEquals_iff]
    exact ⟨rfl, rfl, rfl, Or.inr rfl, Or.inr rfl, Double.eq_self _ h⟩
  · intro hab
    rw [ca_asbd_equals_strict a b mode hmode, strictEquals_iff] at hab
    rw [ca_asbd_equals_strict b a mode hmode, strictEquals_iff]
    obtain ⟨h1, h2, h3, h4, h5, h6⟩ := hab
    have hc := compressed_eq_of_normalize_eq _ _ h3
    refine ⟨h1.symm, h2.symm, h3.symm, ?_, ?_, by rwa [Double.eq_symm]⟩
    · exact h4.elim (fun h => Or.inl (hc ▸ h)) (fun h => Or.inr h.symm)
    · exact h5.elim (fun h => Or.inl (hc ▸ h)) (fun h => Or.inr h.symm)
  · intro hab hbc
    rw [ca_asbd_equals_strict a b mode hmode, strictEquals_iff] at hab
    rw [ca_asbd_equals_strict b c mode hmode, strictEquals_iff] at hbc
    rw [ca_asbd_equals_strict a c mode hmode, strictEquals_iff]
    obtain ⟨h1, h2, h3, h4, h5, h6⟩ := hab
    obtain ⟨k1, k2, k3, k4, k5, k6⟩ := hbc
    have hc := compressed_eq_of_normalize_eq _ _ h3
    refine ⟨h1.trans k1, h2.trans k2, h3.trans k3, ?_, ?_, Double.eq_trans _ _ _ h6 k6⟩
    · rcases h4 with h | h
      · exact Or.inl h
      · rcases k4 with k | k
        · exact Or.inl (hc ▸ k)
        · exact Or.inr (h.trans k)
    · rcases h5 with h | h
      · exact Or.inl h
      · rcases k5 with k | k
        · exact Or.inl (hc ▸ k)
        · exact Or.inr (h.trans k)

/-- C17 in the default mode at three compressed descriptors of different tags, packet sizes
and channel counts: each equals itself, and equality passes from the first and second and
from the second and third to the first and third and to the second and first. -/
theorem ca_asbd_equals_equivalence_witness :
    ca_asbd_equals (withGeometry (compressed tag_IAC3) 6144 6)
        (withGeometry (compressed tag_IAC3) 6144 6) 0 = true ∧
      ca_asbd_equals (withGeometry (compressed kAudioFormatAC3) 1536 2)
        (withGeometry (compressed tag_IAC3) 6144 6) 0 = true ∧
      ca_asbd_equals (withGeometry (compressed tag_IAC3) 6144 6)
        (compressed kAudioFormat60958AC3) 0 = true :=
  have h := ca_asbd_equals_equivalence (withGeometry (compressed tag_IAC3) 6144 6)
    (withGeometry (compressed kAudioFormatAC3) 1536 2) (compressed kAudioFormat60958AC3) 0
    (Or.inr ⟨by decide, by decide, by decide⟩)
  ⟨h.1 (by decide), h.2.1 (by decide), h.2.2 (by decide) (by decide)⟩

/-! ## Ranking: the remaining claims -/

/-- C14: for old and new within the channel maximum whose format tags equal requested's, with
`mixableflag` not 1, `ca_asbd_is_better` is true exactly when `value_is_better` holds for the
width (bytes per frame against 6 when `bytesflag` is 1, bits per channel against requested's
otherwise), for the sample rate and for the channel count, each against requested's. -/
theorem ca_asbd_is_better_iff_all_closer (M : Nat) (req old new : AudioStreamBasicDescription)
    (mixableflag bytesflag : Int) (hnew : new.mChannelsPerFrame ≤ M)
    (hold : old.mChannelsPerFrame ≤ M) (hn : new.mFormatID = req.mFormatID)
    (ho : old.mFormatID = req.mFormatID) (hm : mixableflag ≠ 1) :
    ca_asbd_is_better M req old new mixableflag bytesflag = true ↔
      (widthPasses req old new bytesflag = true ∧
        value_is_better req.mSampleRate old.mSampleRate new.mSampleRate = true ∧
        value_is_better (Double.ofNat req.mChannelsPerFrame)
          (Double.ofNat old.mChannelsPerFrame) (Double.ofNat new.mChannelsPerFrame) = true) := by
  have h1 : ¬ (new.mChannelsPerFrame > M) := by omega
  have h2 : ¬ (old.mChannelsPerFrame > M) := by omega
  by_cases hb : bytesflag = 1
  · simp [ca_asbd_is_better, widthPasses, h1, h2, hn, ho, hm, hb]
  · simp [ca_asbd_is_better, widthPasses, h1, h2, hn, ho, hm, hb]

/-- C14 at requested 48000 Hz 16 bit stereo: 96000 Hz is accepted over 44100 Hz, all three
closer-rules holding, and 24 bit is not accepted over 16 bit, the width rule failing. -/
theorem ca_asbd_is_better_iff_all_closer_witness :
    ca_asbd_is_better 64 (pcm 48000 2 16) (pcm 44100 2 16) (pcm 96000 2 16) 0 0 = true ∧
      ¬ (ca_asbd_is_better 64 (pcm 48000 2 16) (pcm 44100 2 16) (pcm 48000 2 24) 0 0 = true) :=
  ⟨(ca_asbd_is_better_iff_all_closer 64 (pcm 48000 2 16) (pcm 44100 2 16) (pcm 96000 2 16) 0 0
      (by decide) (by decide) rfl rfl (by decide)).mpr ⟨by decide, by decide, by decide⟩,
    fun h => absurd
      ((ca_asbd_is_better_iff_all_closer 64 (pcm 48000 2 16) (pcm 44100 2 16) (pcm 48000 2 24)
        0 0 (by decide) (by decide) rfl rfl (by decide)).mp h).1 (by decide)⟩

/-- C15, as stated, fails: for the requested value NaN neither of 44100 and 48000 is at least
as good as the other, so the relation is not total on the values that are not NaN. -/
theorem value_is_better_nan_request_not_total :
    (Double.ofNat 44100).isNum = true ∧ (Double.ofNat 48000).isNum = true ∧
      value_is_better Double.nan (Double.ofNat 44100) (Double.ofNat 48000) = false ∧
      value_is_better Double.nan (Double.ofNat 48000) (Double.ofNat 44100) = false := by
  decide

/-- C15 (amended): for a requested value r that is not a NaN, `value_is_better(r, old, new)`
read as `new` at least as good as `old` is a total order on the values that are not NaN: of
two such values one is at least as good as the other; two values each at least as good as
the other are equal; and the relation is transitive. The last two hold for every r. -/
theorem value_is_better_total_order (r a b c : Double) :
    (r.isNum = true → a.isNum = true → b.isNum = true →
        value_is_better r a b = true ∨ value_is_better r b a = true) ∧
      (value_is_better r a b = true → value_is_better r b a = true →
        Double.eq a b = true ∧ a = b) ∧
      (value_is_better r a b = true → value_is_better r b c = true →
        value_is_better r a c = true) := by
  refine ⟨?_, ?_, ?_⟩
  · cases r <;> cases a <;> cases b <;>
      simp [value_is_better, Double.ge, Double.le, Double.lt, Double.isNum]
    all_goals
      first
      | exact le_total _ _
      | exact lt_or_le _ _
      | exact le_or_lt _ _
      | skip
    rename_i r a b
    rcases le_or_lt r a with ha | ha <;> rcases le_or_lt r b with hb | hb
    · rw [if_pos hb, if_pos ha]
      rcases le_total a b with h | h
      · exact Or.inr (Or.inr h)
      · exact Or.inl (Or.inr h)
    · rw [if_neg (not_le.mpr hb), if_pos ha]
      exact Or.inr (Or.inl hb)
    · rw [if_pos hb, if_neg (not_le.mpr ha)]
      exact Or.inl (Or.inl ha)
    · rw [if_neg (not_le.mpr hb), if_neg (not_le.mpr ha)]
      rcases le_total a b with h | h
      · exact Or.inl ⟨ha, h⟩
      · exact Or.inr ⟨hb, h⟩
  · cases r <;> cases a <;> cases b <;>
      simp [value_is_better, Double.ge, Double.le, Double.lt, Double.eq]
    all_goals
      intros
      (try split_ifs at *) <;> (try simp only [not_le] at *) <;>
        (try casesm* _ ∧ _, _ ∨ _) <;> linarith
  · cases r <;> cases a <;> cases b <;> cases c <;>
      simp [value_is_better, Double.ge, Double.le, Double.lt]
    all_goals
      intros
      (try split_ifs at *) <;> (try simp only [not_le] at *) <;>
        (try casesm* _ ∧ _, _ ∨ _) <;>
        first
        | linarith
        | exact Or.inl (by linarith)
        | exact Or.inr (by linarith)
        | exact ⟨by linarith, by linarith⟩

/-- C15 (amended) at r = 48000: one of 44100 and 96000 is at least as good as the other;
96000 over 44100 and 48000 over 96000 give 48000 over 44100; and 48000 against itself both
ways gives equal values. -/
theorem value_is_better_total_order_witness :
    (value_is_better (Double.ofNat 48000) (Double.ofNat 44100) (Double.ofNat 96000) = true ∨
        value_is_better (Double.ofNat 48000) (Double.ofNat 96000) (Double.ofNat 44100) = true) ∧
      value_is_better (Double.ofNat 48000) (Double.ofNat 44100) (Double.ofNat 48000) = true ∧
      Double.eq (Double.ofNat 48000) (Double.ofNat 48000) = true :=
  ⟨(value_is_better_total_order (Double.ofNat 48000) (Double.ofNat 44100) (Double.ofNat 96000)
      (Double.ofNat 48000)).1 rfl rfl rfl,
    (value_is_better_total_order (Double.ofNat 48000) (Double.ofNat 44100) (Double.ofNat 96000)
      (Double.ofNat 48000)).2.2 (by decide) (by decide),
    ((value_is_better_total_order (Double.ofNat 48000) (Double.ofNat 48000)
      (Double.ofNat 48000) (Double.ofNat 48000)).2.1 (by decide) (by decide)).1⟩

/-- C16, as stated, fails: a new that is the requested 48000 Hz 16 bit stereo descriptor
itself is rejected against an old that differs from it only by a sample rate that is a NaN,
for every channel maximum and under either mixability policy. -/
theorem ca_asbd_is_better_exact_match_rejected :
    nanFormat = { pcm 48000 2 16 with mSampleRate := Double.nan } ∧
      ∀ (M : Nat) (mixableflag : Int),
        ca_asbd_is_better M (pcm 48000 2 16) nanFormat (pcm 48000 2 16) mixableflag 0
          = false := by
  refine ⟨rfl, ?_⟩
  intro M mixableflag
  by_cases hM : 2 > M
  · simp [ca_asbd_is_better, pcm, hM]
  · by_cases hm : mixableflag = 1 <;>
      simp [ca_asbd_is_better, pcm, nanFormat, value_is_better, Double.ofNat, Double.ge,
        Double.le, Double.lt, hM, hm]

/-- C16 (amended): with `bytesflag` not 1 and requested's channel count within the maximum, a
new that agrees with requested on format tag, bits per channel, sample rate (equal under
`==`), channel count and the non-mixable flag bit is accepted over every old whose sample
rate is not a NaN, under either mixability policy. -/
theorem ca_asbd_is_better_accepts_exact_match (M : Nat)
    (req old new : AudioStreamBasicDescription) (mixableflag bytesflag : Int)
    (hb : bytesflag ≠ 1) (hreq : req.mChannelsPerFrame ≤ M)
    (htag : new.mFormatID = req.mFormatID) (hbits : new.mBitsPerChannel = req.mBitsPerChannel)
    (hrate : Double.eq new.mSampleRate req.mSampleRate = true)
    (hch : new.mChannelsPerFrame = req.mChannelsPerFrame)
    (hmix : nonMixableBit new = nonMixableBit req)
    (hold : old.mSampleRate.isNum = true) :
    ca_asbd_is_better M req old new mixableflag bytesflag = true := by
  have h1 : ¬ (req.mChannelsPerFrame > M) := by omega
  have hr := Double.eq_of_eq _ _ hrate
  have hrn : req.mSampleRate.isNum = true := by
    cases hq : req.mSampleRate <;> simp [Double.isNum]
    rw [hr, hq] at hrate
    simp [Double.eq] at hrate
  have hwidth : value_is_better (Double.ofNat req.mBitsPerChannel)
      (Double.ofNat old.mBitsPerChannel) (Double.ofNat req.mBitsPerChannel) = true := by
    simp only [Double.ofNat, value_is_better_finite, le_refl, if_true, decide_eq_true_eq]
    exact lt_or_le _ _
  have hrate2 : value_is_better req.mSampleRate old.mSampleRate req.mSampleRate = true := by
    cases hq : req.mSampleRate <;> cases ho : old.mSampleRate <;>
      simp [hq, ho, Double.isNum, value_is_better, Double.ge, Double.le, Double.lt] at hrn hold ⊢
    exact lt_or_le _ _
  have hchan : value_is_better (Double.ofNat req.mChannelsPerFrame)
      (Double.ofNat old.mChannelsPerFrame) (Double.ofNat req.mChannelsPerFrame) = true := by
    simp only [Double.ofNat, value_is_better_finite, le_refl, if_true, decide_eq_true_eq]
    exact lt_or_le _ _
  unfold nonMixableBit at hmix
  simp only [ca_asbd_is_better, htag, hbits, hr, hch, hmix, h1, hb, hwidth, hrate2, hchan]
  simp

/-- C16 (amended) at requested = new = 48000 Hz 16 bit stereo against a 96000 Hz 24 bit old,
under the mixability policy. -/
theorem ca_asbd_is_better_accepts_exact_match_witness :
    ca_asbd_is_better 64 (pcm 48000 2 16) (pcm 96000 2 24) (pcm 48000 2 16) 1 0 = true :=
  ca_asbd_is_better_accepts_exact_match 64 (pcm 48000 2 16) (pcm 96000 2 24) (pcm 48000 2 16)
    1 0 (by decide) (by decide) rfl rfl (by decide) rfl rfl rfl

end CoreAudio
